import Mathlib

/-!
Verification development for the Living Canvas drawing-to-living-object
pipeline and its property-driven interaction engine.

Property sets are embedded as association lists of string keys and boolean
values, mirroring the loosely-typed JavaScript objects of the source; the
JS object-spread and property-assignment operations are embedded explicitly
so that key-vocabulary questions can be settled faithfully.
-/

/-- A JS-style property bag: ordered association list from key to boolean. -/
abbrev PropMap := List (String × Bool)

/-- JS object spread x7b ...a, ...b x7d: the keys of a in order (values
overridden by b where b also has the key), followed by the keys of b that
a does not have, in order. -/
def jsSpread (a b : PropMap) : PropMap :=
  a.map (fun kv =>
    match b.lookup kv.1 with
    | some v => (kv.1, v)
    | none => kv)
  ++ b.filter (fun kv => (a.lookup kv.1).isNone)

/-- JS property assignment obj[k] = v: updates the key in place when
present, appends it otherwise. -/
def jsAssign (m : PropMap) (k : String) (v : Bool) : PropMap :=
  if (m.lookup k).isSome then
    m.map (fun kv => if kv.1 = k then (kv.1, v) else kv)
  else m ++ [(k, v)]

/-- Modelled from the spec: the closed trait vocabulary, i.e. the keys of
WorldObject.getZeroWorldObjProp / getDefaultWorldObjProp. The WorldObject
module itself is not among the provided sources (only its callers are);
the key set is assembled from the spec's canonical traits and every trait
key the provided stage code reads or writes. -/
def worldObjPropKeys : List String :=
  ["solid", "falls", "floats", "hovers", "drips", "douses", "heavy",
   "burns", "explodes", "flies", "wooden", "metal", "ice", "blows",
   "lightning", "rusted", "magnetic", "generating", "user_generated_obj"]

/-- Modelled from the spec: WorldObject.getZeroWorldObjProp, the zero
baseline with every trait false. -/
def getZeroWorldObjProp : PropMap :=
  worldObjPropKeys.map (fun k => (k, false))

/-- Modelled from the spec: WorldObject.getDefaultWorldObjProp, the
built-in default property set of an ordinary solid falling object
(processCanvas flips solid off for the transient placeholder, so the
default has it on). -/
def getDefaultWorldObjProp : PropMap :=
  worldObjPropKeys.map (fun k => (k, k == "solid" || k == "falls"))

/-- A classification response as seen by the stage code: it may carry an
Ollama-style properties object, a legacy Gemini attributes array, a
moderation flag, and a type label. -/
structure GeminiResponse where
  shouldRemove : Bool
  type : String
  properties : Option PropMap
  attributes : Option (List String)
deriving DecidableEq

/-- extractPropertiesFromGeminiData from the stage code: undefined data
falls back to the defaults; a properties object is spread over the zero
config; an attributes array sets each zero-config key that the array
contains; any other shape falls back to the defaults. -/
def extractPropertiesFromGeminiData (rawData : Option GeminiResponse) : PropMap :=
  match rawData with
  | none => getDefaultWorldObjProp
  | some rd =>
    match rd.properties with
    | some props => jsSpread getZeroWorldObjProp props
    | none =>
      match rd.attributes with
      | some attrs =>
          getZeroWorldObjProp.map
            (fun kv => if attrs.contains kv.1 then (kv.1, true) else kv)
      | none => getDefaultWorldObjProp

/-- The property keys carried by the response itself, when it is in the
Ollama direct-map shape. -/
def responsePropertyKeys : Option GeminiResponse → List String
  | some r =>
    match r.properties with
    | some props => props.map Prod.fst
    | none => []
  | none => []

/-- A response shape extractPropertiesFromGeminiData does not recognize:
undefined, or carrying neither a properties object nor an attributes
array. -/
def responseShapeUnknown : Option GeminiResponse → Bool
  | none => true
  | some r => r.properties.isNone && r.attributes.isNone

/-- The merge in processCanvas: spread the extracted properties over the
defaults, then set user_generated_obj to true. -/
def mergeFinalProperties (additionalProperties : PropMap) : PropMap :=
  jsAssign (jsSpread getDefaultWorldObjProp additionalProperties)
    "user_generated_obj" true

/-!
The generation-orchestrator run (processCanvas) with the shapes a
/generateImage server response can take and the JS-level unwrapping the
client performs on it.
-/

/-- Body of a /generateImage HTTP response: either a JSON object (the
server sends res.json for the moderation response and for the veo
hash response) or plain text (the base64 image for imagen/gemini). -/
inductive GenBody where
  | jsonBody (error : Option String) (hash : Option String) (shouldRemove : Bool)
  | textBody (s : String)
deriving DecidableEq

/-- An HTTP response from the /generateImage endpoint. -/
structure GenHttpResponse where
  ok : Bool
  body : GenBody
deriving DecidableEq

/-- Reading a response body as text (response.text()): a JSON body
serializes to its JSON text. -/
def genBodyText : GenBody → String
  | .textBody s => s
  | .jsonBody _ _ sr =>
      "\x7b\"shouldRemove\":" ++ (if sr then "true" else "false") ++ "\x7d"

/-- The JS value sendToImageGenerationBackend resolves with: a string
(base64 text or veo hash), or undefined (result.hash when the JSON has
no hash field). -/
inductive JSGenValue where
  | str (s : String)
  | undef
deriving DecidableEq

/-- String prefix test by character list, so that concrete evaluation
reduces in the kernel (same result as String.startsWith). -/
def strStartsWith (s p : String) : Bool :=
  p.data.isPrefixOf s.data

/-- sendToImageGenerationBackend from the stage code: non-ok responses
throw; for veo the body is parsed as JSON, result.error throws and
result.hash is returned (undefined when absent); otherwise the body is
read as text, throwing on an Error: prefix or an empty body. -/
def sendToImageGenerationBackend (generatorType : String)
    (resp : GenHttpResponse) : Except String JSGenValue :=
  if !resp.ok then .error "http error"
  else if generatorType == "veo" then
    match resp.body with
    | .textBody _ => .error "json parse error"
    | .jsonBody err hash _ =>
      match err with
      | some e => .error e
      | none =>
        match hash with
        | some h => .ok (.str h)
        | none => .ok .undef
  else
    let b64 := genBodyText resp.body
    if strStartsWith b64 "Error:" then .error (b64.drop 6)
    else if b64 == "" then .error "Received empty image data"
    else .ok (.str b64)

/-- Evaluating generatedImageData !== null && generatedImageData.shouldRemove
on the resolved JS value: a string has no shouldRemove property (the access
yields undefined, which is falsy); reading a property of undefined throws a
TypeError, which the enclosing try/catch of processCanvas catches. -/
def jsReadShouldRemove : JSGenValue → Except String Bool
  | .str _ => .ok false
  | .undef => .error "TypeError: cannot read shouldRemove of undefined"

/-- The environment of one pipeline run: the primary (Ollama) and fallback
classification results (none models a null/failed call) and the
/generateImage response. -/
structure PipelineEnv where
  ollamaResponse : Option GeminiResponse
  fallbackResponse : Option GeminiResponse
  generateResponse : GenHttpResponse
deriving DecidableEq

/-- Observable outcome of one processCanvas run for the resources the run
owns: the loading-particle emitter, the transient placeholder entity, and
whether that entity was finalized (updateObject called with the resolved
properties). -/
structure RunOutcome where
  particlesStopped : Bool
  particlesDestroyed : Bool
  placeholderDestroyed : Bool
  entityFinalized : Bool
  finalizedProps : Option PropMap
  userVisibleError : Bool
deriving DecidableEq

/-- Outcome of the classification-stage moderation branch: particles
stopped and destroyed, placeholder destroyed, nothing created, no
user-visible error. -/
def silentTeardownOutcome : RunOutcome :=
  { particlesStopped := true, particlesDestroyed := true,
    placeholderDestroyed := true, entityFinalized := false,
    finalizedProps := none, userVisibleError := false }

/-- Outcome of the catch block of processCanvas: particles stopped and
destroyed, effects stopped, placeholder destroyed, only console logging. -/
def errorCatchOutcome : RunOutcome :=
  { particlesStopped := true, particlesDestroyed := true,
    placeholderDestroyed := true, entityFinalized := false,
    finalizedProps := none, userVisibleError := false }

/-- Classification with fallback, as sequenced in processCanvas: the
Ollama analysis result if any, otherwise the traditional analysis
result. -/
def classifyStageResponse (env : PipelineEnv) : Option GeminiResponse :=
  match env.ollamaResponse with
  | some r => some r
  | none => env.fallbackResponse

/-- processCanvas from the stage code, as a function from the backend
environment to the run outcome. Classification failure of both backends
throws (caught by the catch block); a classification shouldRemove tears
down silently; generation errors and the TypeError from reading
shouldRemove off an undefined value reach the catch block; otherwise the
entity is finalized (for veo with the extracted properties, for
imagen/gemini with the merged final properties). -/
def processCanvas (generatorType : String) (env : PipelineEnv) : RunOutcome :=
  match classifyStageResponse env with
  | none => errorCatchOutcome
  | some resp =>
    if resp.shouldRemove then silentTeardownOutcome
    else
      match sendToImageGenerationBackend generatorType env.generateResponse with
      | .error _ => errorCatchOutcome
      | .ok v =>
        match jsReadShouldRemove v with
        | .error _ => errorCatchOutcome
        | .ok true => silentTeardownOutcome
        | .ok false =>
          let additionalProperties :=
            extractPropertiesFromGeminiData (some resp)
          if generatorType == "veo" then
            { particlesStopped := true, particlesDestroyed := true,
              placeholderDestroyed := false, entityFinalized := true,
              finalizedProps := some additionalProperties,
              userVisibleError := false }
          else
            { particlesStopped := true, particlesDestroyed := true,
              placeholderDestroyed := false, entityFinalized := true,
              finalizedProps := some (mergeFinalProperties additionalProperties),
              userVisibleError := false }

/-!
The frame-polling subsystem (pollForFramesAndShowAnimation) for the
asynchronously generated veo animation frames.
-/

/-- The frame texture key genframe_hash_i used while loading animation
frames. -/
def frameKey (hash : String) (i : Nat) : String :=
  "genframe_" ++ hash ++ "_" ++ toString i

/-- What one polling round observes: checkFrameStatus throws (an error
file exists, an unexpected status, or a connection failure); the frames
are not all ready yet; the frames are declared ready but loading them
fails after n of them loaded; or the frames are ready and load. -/
inductive PollAttempt where
  | errorSignal
  | notReady
  | readyLoadFail (loaded : Nat)
  | readyLoadOk
deriving DecidableEq

/-- The visible state of the entity awaiting its animation: which texture
keys are loaded, whether the blink tween runs, whether alpha is restored
to 1, the texture the entity currently shows, and whether it plays an
animation. -/
structure VeoEntityState where
  loadedTextures : List String
  blinkActive : Bool
  alphaIsOne : Bool
  entityTextureKey : Option String
  animated : Bool
deriving DecidableEq

/-- handleVeoFailure from the stage code: remove every loaded
genframe_hash_i texture (i in 0..3), stop the blink tween and restore
alpha to 1, and update the entity to the static placeholder image keyed
by the hash. -/
def handleVeoFailure (hash : String) (st : VeoEntityState) : VeoEntityState :=
  { loadedTextures :=
      st.loadedTextures.filter
        (fun t => !((List.range 4).any (fun i => t == frameKey hash i))),
    blinkActive := false,
    alphaIsOne := true,
    entityTextureKey := some hash,
    animated := false }

/-- tryLoadFrames partial effect: the first n (of 4) frame textures are
registered with the loader. -/
def loadFrames (hash : String) (n : Nat) (st : VeoEntityState) : VeoEntityState :=
  { st with loadedTextures :=
      st.loadedTextures ++ (List.range (min n 4)).map (frameKey hash) }

/-- createAndPlayAnimation: the entity plays the looping animation built
from the four frame textures. -/
def playAnimation (hash : String) (st : VeoEntityState) : VeoEntityState :=
  { st with animated := true, entityTextureKey := some (frameKey hash 0) }

/-- The polling attempt budget maxRetries of the stage code. -/
def maxRetries : Nat := 30

/-- The polling loop of pollForFramesAndShowAnimation: attempt k with the
given remaining budget. A thrown status check runs handleVeoFailure and
returns; a successful ready-and-loaded round plays the animation; not
ready or a failed load consume one attempt; an exhausted budget runs
handleVeoFailure. -/
def pollLoop (env : Nat → PollAttempt) (hash : String) :
    Nat → Nat → VeoEntityState → VeoEntityState
  | _, 0, st => handleVeoFailure hash st
  | k, fuel + 1, st =>
    match env k with
    | .errorSignal => handleVeoFailure hash st
    | .notReady => pollLoop env hash (k + 1) fuel st
    | .readyLoadFail n => pollLoop env hash (k + 1) fuel (loadFrames hash n st)
    | .readyLoadOk => playAnimation hash (loadFrames hash 4 st)

/-- pollForFramesAndShowAnimation from the stage code, over a trace of
polling observations. -/
def pollForFramesAndShowAnimation (env : Nat → PollAttempt) (hash : String)
    (st : VeoEntityState) : VeoEntityState :=
  pollLoop env hash 0 maxRetries st

/-!
The fluid sensor coupling registered by registerCollision(water), for one
colliding pair of physics bodies.
-/

/-- Traits of a world object read or written by the water coupling. -/
structure WObjProp where
  heavy : Bool
  floats : Bool
deriving DecidableEq

/-- A game object attached to a physics body: its property set and its
wet effect. -/
structure WGameObject where
  prop : WObjProp
  wet : Bool
deriving DecidableEq

/-- A physics body of a colliding pair: whether it is the water sensor
and the game object it carries, if any. -/
structure WBody where
  isSensor : Bool
  gameObject : Option WGameObject
deriving DecidableEq

/-- The friction a splash is created with (worldConfig.frictionWater at
contact-begin, worldConfig.frictionAir at contact-end). -/
inductive SplashFriction where
  | water
  | air
deriving DecidableEq

/-- State of one colliding pair under the water handlers: the two bodies,
the water floating effect attached to each side, and the last splash
created for each side. -/
structure WaterPairState where
  bodyA : WBody
  bodyB : WBody
  aFloatingEffect : Bool
  bFloatingEffect : Bool
  aSplash : Option SplashFriction
  bSplash : Option SplashFriction
deriving DecidableEq

/-- bodyX.gameObject?.addWet(). -/
def addWetTo (b : WBody) : WBody :=
  { b with gameObject := b.gameObject.map (fun o => { o with wet := true }) }

/-- gameObjectX.prop.floats = false. -/
def setFloatsFalse (b : WBody) : WBody :=
  { b with gameObject :=
      b.gameObject.map (fun o => { o with prop := { o.prop with floats := false } }) }

/-- The optional chain gameObjectX.prop?.heavy, falsy when there is no
game object. -/
def heavyOf (b : WBody) : Bool :=
  (b.gameObject.map (fun o => o.prop.heavy)).getD false

/-- The collisionstart handler of registerCollision for one pair: a body
touching the sensor gets a splash with water friction, the floating
effect, and addWet; then, when both bodies carry game objects, a heavy
body A removes the floating effect from body B and clears B's floats
trait, and symmetrically. -/
def collisionStartPair (st0 : WaterPairState) : WaterPairState :=
  let st1 :=
    if st0.bodyA.isSensor then
      { st0 with bSplash := some .water, bFloatingEffect := true,
                 bodyB := addWetTo st0.bodyB }
    else st0
  let st2 :=
    if st1.bodyB.isSensor then
      { st1 with aSplash := some .water, aFloatingEffect := true,
                 bodyA := addWetTo st1.bodyA }
    else st1
  match st2.bodyA.gameObject, st2.bodyB.gameObject with
  | some ga, some _ =>
    let st3 :=
      if ga.prop.heavy then
        { st2 with bFloatingEffect := false, bodyB := setFloatsFalse st2.bodyB }
      else st2
    if heavyOf st3.bodyB then
      { st3 with aFloatingEffect := false, bodyA := setFloatsFalse st3.bodyA }
    else st3
  | _, _ => st2

/-- The collisionend handler of registerCollision for one pair: a body
leaving the sensor gets a splash with air friction and its floating
effect removed. -/
def collisionEndPair (st0 : WaterPairState) : WaterPairState :=
  let st1 :=
    if st0.bodyA.isSensor then
      { st0 with bSplash := some .air, bFloatingEffect := false }
    else st0
  if st1.bodyB.isSensor then
    { st1 with aSplash := some .air, aFloatingEffect := false }
  else st1

/-!
The collisionactive interaction rules of registerCollisionActive.
-/

/-- The trait and effect state of an entity read or written by the
collisionactive rules. -/
structure EntState where
  wooden : Bool
  ice : Bool
  lightning : Bool
  rusted : Bool
  onFire : Bool
  texture : String
deriving DecidableEq

/-- Modelled from the spec: WorldObject.canSetFire (the WorldObject module
is not among the provided sources) — an entity can set things alight when
it is actively burning or is a lightning source. -/
def canSetFire (e : EntState) : Bool :=
  e.onFire || e.lightning

/-- Modelled from the spec: WorldObject.addFire — begin the burn effect of
the entity. -/
def addFire (e : EntState) : EntState :=
  { e with onFire := true }

/-- The ignition clause: if the source can set fire and the target is
wooden or ice, the target catches fire. -/
def igniteIfFlammable (src tgt : EntState) : EntState :=
  if canSetFire src && (tgt.wooden || tgt.ice) then addFire tgt else tgt

/-- The conduction clause: if the source has lightning and the target is
rusted, clear rusted and switch the target texture to the de-rusted key
asset. -/
def conductIfRusted (src tgt : EntState) : EntState :=
  if src.lightning && tgt.rusted then
    { tgt with rusted := false, texture := "key" }
  else tgt

/-- The collisionactive handler of registerCollisionActive for one pair,
in source order: ignite A to B, conduct A to B, ignite B to A (with B's
updated state), conduct B to A. -/
def collisionActivePair (a b : EntState) : EntState × EntState :=
  let b1 := igniteIfFlammable a b
  let b2 := conductIfRusted a b1
  let a1 := igniteIfFlammable b2 a
  let a2 := conductIfRusted b2 a1
  (a2, b2)

/-!
The imperative electrify command of processCommand, compared with the
collision-path conduction mutation.
-/

/-- A command target as the electrify verb sees it: whether it is a
RustedKey instance, its rusted trait, and its texture. -/
structure CmdEnt where
  isRustedKey : Bool
  rusted : Bool
  texture : String
deriving DecidableEq

/-- The electrify branch of processCommand applied to one target: if the
target is rusted, clear rusted, and switch the texture to key only when
the target is a RustedKey instance. -/
def electrifyTarget (t : CmdEnt) : CmdEnt :=
  if t.rusted then
    let t1 : CmdEnt := { t with rusted := false }
    if t1.isRustedKey then { t1 with texture := "key" } else t1
  else t

/-- The mutation the conduction rule of registerCollisionActive performs
on the rusted body (on contact with a lightning body): clear rusted and
switch the texture to key, with no RustedKey instance check. -/
def conductionMutation (t : CmdEnt) : CmdEnt :=
  if t.rusted then { t with rusted := false, texture := "key" } else t

/-!
The GET /checkFrames/:hash endpoint of the server.
-/

/-- The frame file path the endpoint probes for frame i of a hash. -/
def frameFile (hash : String) (i : Nat) : String :=
  "generated/output_" ++ hash ++ "_frame" ++ toString i ++ ".png"

/-- Result of the /checkFrames/:hash handler: a 400 error, or the frame
status JSON. -/
inductive CheckFramesResult where
  | badRequest (error : String)
  | status (ready : Bool) (progress : Nat) (total : Nat)
deriving DecidableEq

/-- The /checkFrames/:hash handler: a missing or empty hash yields a 400
error; otherwise it counts which of the four frame files exist and
responds with ready, progress and total. -/
def checkFramesHandler (hash : Option String) (fsExists : String → Bool) :
    CheckFramesResult :=
  match hash with
  | none => .badRequest "Hash parameter is required"
  | some h =>
    if h == "" then .badRequest "Hash parameter is required"
    else
      let totalFrames := 4
      let readyFrames :=
        (List.range totalFrames).countP (fun i => fsExists (frameFile h i))
      .status (readyFrames == totalFrames) readyFrames totalFrames

/-!
parsePropertiesFromString from the server AI helper.
-/

/-- The object literal parsePropertiesFromString starts from: the fixed
fourteen trait keys with their initial values. -/
def initialParseProperties : PropMap :=
  [("floats", false), ("hovers", false), ("falls", true), ("drips", false),
   ("douses", false), ("solid", true), ("heavy", false), ("burns", false),
   ("explodes", false), ("flies", false), ("wooden", false), ("metal", false),
   ("ice", false), ("blows", false)]

/-- The assignments each recognized property word performs, in source
order of the switch cases. -/
def wordAssignments (word : String) : List (String × Bool) :=
  match word with
  | "hot" | "fire" | "burn" | "flammable" => [("burns", true)]
  | "cold" | "frozen" | "ice" => [("ice", true)]
  | "heavy" | "dense" => [("heavy", true)]
  | "light" | "floats" | "buoyant" =>
      [("floats", true), ("heavy", false), ("falls", false)]
  | "fluid" | "flows" | "water" => [("drips", true), ("douses", true)]
  | "metal" | "metallic" => [("metal", true), ("heavy", true)]
  | "wood" | "wooden" => [("wooden", true)]
  | "wind" | "air" | "blows" =>
      [("blows", true), ("solid", false)]
  | "explosion" | "explosive" => [("explodes", true)]
  | "flying" | "flies" => [("flies", true), ("falls", false)]
  | _ => []

/-- Apply one recognized word's assignments to the properties object. -/
def applyPropertyWord (m : PropMap) (word : String) : PropMap :=
  (wordAssignments word).foldl (fun acc kv => jsAssign acc kv.1 kv.2) m

/-- The assignments of the type-specific override chain, in source
order. -/
def typeOverrideAssignments (objectType : String) : List (String × Bool) :=
  if objectType == "fire" then [("burns", true), ("solid", true), ("falls", true)]
  else if objectType == "candle" then
    [("burns", true), ("solid", true), ("falls", true)]
  else if objectType == "flame" then
    [("burns", true), ("solid", true), ("falls", true)]
  else if objectType == "ice" then [("ice", true)]
  else if objectType == "water" then
    [("drips", true), ("douses", true), ("falls", true)]
  else if objectType == "wind" then
    [("blows", true), ("solid", false), ("falls", false)]
  else []

/-- parsePropertiesFromString from the server AI helper: start from the
fixed fourteen-key object, apply the assignments of each comma-separated
lowercased trimmed word, then apply the type-specific overrides last.
The confidence parameter is accepted and unused, as in the source. -/
def parsePropertiesFromString (objectType : String) (propertiesStr : String)
    (confidence : ℚ) : PropMap :=
  let words := (propertiesStr.toLower.splitOn ",").map String.trim
  let afterWords := words.foldl applyPropertyWord initialParseProperties
  (typeOverrideAssignments objectType).foldl
    (fun acc kv => jsAssign acc kv.1 kv.2) afterWords

/-!
Helper lemmas about the association-list embedding of JS objects.
-/

theorem lookup_append_pm (xs ys : PropMap) (k : String) :
    (xs ++ ys).lookup k = (xs.lookup k).or (ys.lookup k) := by
  induction xs with
  | nil => simp
  | cons hd tl ih =>
    cases hd with
    | mk a b =>
      simp only [List.cons_append, List.lookup]
      cases h : (k == a) <;> simp [ih]

theorem lookup_map_pair (l : List String) (g : String → Bool) (k : String)
    (hk : k ∈ l) : (l.map (fun x => (x, g x))).lookup k = some (g k) := by
  induction l with
  | nil => cases hk
  | cons hd tl ih =>
    simp only [List.map_cons, List.lookup]
    by_cases h : k = hd
    · subst h; simp
    · have hb : (k == hd) = false := by simpa using h
      rw [hb]
      have : k ∈ tl := by
        rcases List.mem_cons.1 hk with h1 | h1
        · exact absurd h1 h
        · exact h1
      exact ih this

theorem map_fst_map_pair (l : List String) (g : String → Bool) :
    ((l.map (fun x => (x, g x))).map Prod.fst) = l := by
  rw [List.map_map]
  simp [Function.comp_def]

theorem jsSpread_map_pair (l : List String) (f : String → Bool) (b : PropMap) :
    jsSpread (l.map fun x => (x, f x)) b =
      (l.map fun x => (x, (b.lookup x).getD (f x)))
        ++ b.filter
            (fun kv => (((l.map fun x => (x, f x)).lookup kv.1)).isNone) := by
  unfold jsSpread
  congr 1
  rw [List.map_map]
  apply List.map_congr_left
  intro x _
  simp only [Function.comp_apply]
  cases h : b.lookup x <;> simp [h]

theorem jsSpread_baseline_lookup (l : List String) (f : String → Bool)
    (b : PropMap) (k : String) (hk : k ∈ l) :
    (jsSpread (l.map fun x => (x, f x)) b).lookup k
      = some ((b.lookup k).getD (f k)) := by
  rw [jsSpread_map_pair, lookup_append_pm,
    lookup_map_pair l (fun x => (b.lookup x).getD (f x)) k hk]
  simp

theorem mem_map_fst_jsSpread {a b : PropMap} {x : String}
    (hx : x ∈ (jsSpread a b).map Prod.fst) :
    x ∈ a.map Prod.fst ∨ x ∈ b.map Prod.fst := by
  unfold jsSpread at hx
  rw [List.map_append] at hx
  rcases List.mem_append.1 hx with h | h
  · left
    rw [List.map_map] at h
    rcases List.mem_map.1 h with ⟨kv, hkv, heq⟩
    refine List.mem_map.2 ⟨kv, hkv, ?_⟩
    simp only [Function.comp_apply] at heq
    cases hl : b.lookup kv.1 <;> rw [hl] at heq <;> simp_all
  · right
    rcases List.mem_map.1 h with ⟨kv, hkv, heq⟩
    exact List.mem_map.2 ⟨kv, (List.mem_filter.1 hkv).1, heq⟩

theorem mem_map_fst_jsAssign {m : PropMap} {k : String} {v : Bool} {x : String}
    (hx : x ∈ (jsAssign m k v).map Prod.fst) :
    x ∈ m.map Prod.fst ∨ x = k := by
  unfold jsAssign at hx
  split at hx
  · left
    rw [List.map_map] at hx
    rcases List.mem_map.1 hx with ⟨kv, hkv, heq⟩
    refine List.mem_map.2 ⟨kv, hkv, ?_⟩
    simp only [Function.comp_apply] at heq
    split at heq <;> simp_all
  · rw [List.map_append] at hx
    rcases List.mem_append.1 hx with h | h
    · exact Or.inl h
    · simp at h
      exact Or.inr h

theorem lookup_isSome_of_mem_keys {m : PropMap} {k : String}
    (hk : k ∈ m.map Prod.fst) : (m.lookup k).isSome := by
  induction m with
  | nil => simp at hk
  | cons hd tl ih =>
    cases hd with
    | mk a b =>
      by_cases h : k = a
      · subst h; simp [List.lookup]
      · have hb : (k == a) = false := by simpa using h
        simp only [List.lookup, hb]
        apply ih
        rcases List.mem_map.1 hk with ⟨kv, hkv, heq⟩
        rcases List.mem_cons.1 hkv with h1 | h1
        · subst h1; simp at heq; exact absurd heq.symm h
        · exact List.mem_map.2 ⟨kv, h1, heq⟩

theorem map_fst_jsAssign_of_mem {m : PropMap} {k : String} (v : Bool)
    (hk : k ∈ m.map Prod.fst) :
    (jsAssign m k v).map Prod.fst = m.map Prod.fst := by
  unfold jsAssign
  rw [if_pos (lookup_isSome_of_mem_keys hk)]
  rw [List.map_map]
  apply List.map_congr_left
  intro kv _
  simp only [Function.comp_apply]
  split <;> simp

theorem updatePair_eq (k : String) (v : Bool) (p : String × Bool) :
    (if p.1 = k then (p.1, v) else p) = (p.1, if p.1 = k then v else p.2) := by
  by_cases hp : p.1 = k <;> simp [hp]

theorem lookup_mapUpdate_self (m : PropMap) (k : String) (v : Bool)
    (hsome : (m.lookup k).isSome) :
    (m.map (fun kv => if kv.1 = k then (kv.1, v) else kv)).lookup k = some v := by
  induction m with
  | nil => simp at hsome
  | cons hd tl ih =>
    cases hd with
    | mk a b =>
      rw [List.map_cons, updatePair_eq]
      by_cases hak : a = k
      · subst hak
        simp [List.lookup]
      · have hb : (k == a) = false := by
          rw [beq_eq_false_iff_ne]
          exact fun hk => hak hk.symm
        have hs2 : (tl.lookup k).isSome := by
          simpa [List.lookup, hb] using hsome
        show ((a, if a = k then v else b) ::
          tl.map (fun kv => if kv.1 = k then (kv.1, v) else kv)).lookup k = some v
        simp only [List.lookup, hb]
        exact ih hs2

theorem lookup_mapUpdate_ne (m : PropMap) (k k2 : String) (v : Bool)
    (h : ¬ k2 = k) :
    (m.map (fun kv => if kv.1 = k then (kv.1, v) else kv)).lookup k2
      = m.lookup k2 := by
  induction m with
  | nil => simp
  | cons hd tl ih =>
    cases hd with
    | mk a b =>
      rw [List.map_cons, updatePair_eq]
      show ((a, if a = k then v else b) ::
        tl.map (fun kv => if kv.1 = k then (kv.1, v) else kv)).lookup k2
          = ((a, b) :: tl).lookup k2
      by_cases hk2a : k2 = a
      · subst hk2a
        have hif : (k2 = k) = False := by simp [h]
        simp [List.lookup, hif]
      · have hb : (k2 == a) = false := by
          rw [beq_eq_false_iff_ne]; exact hk2a
        simp only [List.lookup, hb]
        exact ih

theorem jsAssign_lookup_self (m : PropMap) (k : String) (v : Bool) :
    (jsAssign m k v).lookup k = some v := by
  unfold jsAssign
  split
  · rename_i hsome
    exact lookup_mapUpdate_self m k v hsome
  · rename_i hnone
    have hnone2 : m.lookup k = none := by
      cases h : m.lookup k
      · rfl
      · rw [h] at hnone; simp at hnone
    rw [lookup_append_pm, hnone2]
    simp [List.lookup]

theorem jsAssign_lookup_ne (m : PropMap) (k k2 : String) (v : Bool)
    (h : ¬ k2 = k) : (jsAssign m k v).lookup k2 = m.lookup k2 := by
  unfold jsAssign
  split
  · exact lookup_mapUpdate_ne m k k2 v h
  · rw [lookup_append_pm]
    have hsingle : ([(k, v)] : PropMap).lookup k2 = none := by
      have hb : (k2 == k) = false := by
        rw [beq_eq_false_iff_ne]; exact h
      simp [List.lookup, hb]
    rw [hsingle]
    cases hm : m.lookup k2 <;> simp

theorem foldl_jsAssign_map_fst (assigns : List (String × Bool)) (m : PropMap)
    (h : ∀ kv ∈ assigns, kv.1 ∈ m.map Prod.fst) :
    ((assigns.foldl (fun acc kv => jsAssign acc kv.1 kv.2) m)).map Prod.fst
      = m.map Prod.fst := by
  induction assigns generalizing m with
  | nil => rfl
  | cons hd tl ih =>
    simp only [List.foldl_cons]
    have hhd : hd.1 ∈ m.map Prod.fst := h hd (List.mem_cons_self hd tl)
    have hstep := map_fst_jsAssign_of_mem hd.2 hhd
    rw [ih (jsAssign m hd.1 hd.2)]
    · exact hstep
    · intro kv hkv
      rw [hstep]
      exact h kv (List.mem_cons_of_mem hd hkv)

theorem mem_keys_extract {rd : Option GeminiResponse} {x : String}
    (hx : x ∈ (extractPropertiesFromGeminiData rd).map Prod.fst) :
    x ∈ worldObjPropKeys ∨ x ∈ responsePropertyKeys rd := by
  match rd with
  | none =>
    left
    rw [extractPropertiesFromGeminiData, getDefaultWorldObjProp,
      map_fst_map_pair] at hx
    exact hx
  | some rd =>
    match hp : rd.properties with
    | some props =>
      rw [extractPropertiesFromGeminiData, hp] at hx
      rcases mem_map_fst_jsSpread hx with h | h
      · left
        rw [getZeroWorldObjProp, map_fst_map_pair] at h
        exact h
      · right
        rw [responsePropertyKeys, hp]
        exact h
    | none =>
      match ha : rd.attributes with
      | some attrs =>
        left
        have hmaps : ((getZeroWorldObjProp.map
            (fun kv => if attrs.contains kv.1 then (kv.1, true) else kv)).map
              Prod.fst) = worldObjPropKeys := by
          rw [getZeroWorldObjProp, List.map_map, List.map_map]
          have h1 : ∀ y ∈ worldObjPropKeys,
              ((Prod.fst ∘ fun kv : String × Bool =>
                  if attrs.contains kv.1 then (kv.1, true) else kv)
                ∘ fun k => (k, false)) y = y := by
            intro y _
            simp only [Function.comp_apply]
            cases h : attrs.contains y <;> simp [h]
          rw [List.map_congr_left h1]
          exact List.map_id worldObjPropKeys
        rw [extractPropertiesFromGeminiData, hp, ha, hmaps] at hx
        exact hx
      | none =>
        left
        rw [extractPropertiesFromGeminiData, hp, ha, getDefaultWorldObjProp,
          map_fst_map_pair] at hx
        exact hx

/-!
Claim theorems.
-/

/-- C1 counterexample: an unknown trait key present in an Ollama-format
properties object survives extraction and the merge into the final
properties, so the merged Property Set is not confined to the closed
vocabulary. -/
theorem extract_unknown_key_retained :
    "sparkly" ∈ (mergeFinalProperties (extractPropertiesFromGeminiData
        (some ⟨false, "cat", some [("sparkly", true)], none⟩))).map Prod.fst
    ∧ "sparkly" ∉ worldObjPropKeys := by
  decide

/-- C1 (amended): every key of the merged final properties is either a
key of the closed vocabulary or a key carried verbatim by the response's
own properties object; the attribute-list format and the fallback shapes
contribute vocabulary keys only, while the Ollama direct-map format
retains the response's keys, known or not. -/
theorem final_properties_keys_closed_or_from_response
    (rd : Option GeminiResponse) (x : String)
    (hx : x ∈ (mergeFinalProperties
        (extractPropertiesFromGeminiData rd)).map Prod.fst) :
    x ∈ worldObjPropKeys ∨ x ∈ responsePropertyKeys rd := by
  unfold mergeFinalProperties at hx
  rcases mem_map_fst_jsAssign hx with hx2 | rfl
  · rcases mem_map_fst_jsSpread hx2 with h | h
    · left
      rw [getDefaultWorldObjProp, map_fst_map_pair] at h
      exact h
    · exact mem_keys_extract h
  · left
    decide

theorem final_properties_keys_closed_or_from_response_witness :
    "solid" ∈ worldObjPropKeys ∨ "solid" ∈ responsePropertyKeys none :=
  final_properties_keys_closed_or_from_response none "solid" (by decide)

/-- C8: property resolution is total over the response shapes: an
undefined or unrecognized shape yields the built-in default property set
(never a failure); a direct property-map response is normalized onto the
zero baseline, every vocabulary trait resolving to the response's value
or false; an attribute-list response sets exactly the listed vocabulary
traits over the all-false baseline. -/
theorem extract_normalizes_and_defaults (rd : Option GeminiResponse) :
    (responseShapeUnknown rd = true →
        extractPropertiesFromGeminiData rd = getDefaultWorldObjProp)
    ∧ (∀ r props, rd = some r → r.properties = some props →
        ∀ k, k ∈ worldObjPropKeys →
          (extractPropertiesFromGeminiData rd).lookup k
            = some ((props.lookup k).getD false))
    ∧ (∀ r attrs, rd = some r → r.properties = none →
        r.attributes = some attrs →
        ∀ k, k ∈ worldObjPropKeys →
          (extractPropertiesFromGeminiData rd).lookup k
            = some (attrs.contains k)) := by
  refine ⟨?_, ?_, ?_⟩
  · intro hu
    match rd with
    | none => rfl
    | some r =>
      cases hprop : r.properties with
      | some props => rw [responseShapeUnknown, hprop] at hu; simp at hu
      | none =>
        cases hattr : r.attributes with
        | some attrs => rw [responseShapeUnknown, hprop, hattr] at hu; simp at hu
        | none => simp [extractPropertiesFromGeminiData, hprop, hattr]
  · intro r props hrd hp k hk
    subst hrd
    simp only [extractPropertiesFromGeminiData, hp]
    rw [getZeroWorldObjProp]
    exact jsSpread_baseline_lookup worldObjPropKeys (fun _ => false) props k hk
  · intro r attrs hrd hp ha k hk
    subst hrd
    simp only [extractPropertiesFromGeminiData, hp, ha]
    have hmap : getZeroWorldObjProp.map
        (fun kv => if attrs.contains kv.1 then (kv.1, true) else kv)
        = worldObjPropKeys.map (fun x => (x, attrs.contains x)) := by
      rw [getZeroWorldObjProp, List.map_map]
      apply List.map_congr_left
      intro y _
      simp only [Function.comp_apply]
      cases h : attrs.contains y <;> simp [h]
    rw [hmap, lookup_map_pair worldObjPropKeys (fun x => attrs.contains x) k hk]

theorem extract_normalizes_and_defaults_witness :
    (extractPropertiesFromGeminiData
        (some ⟨false, "t", none, some ["burns"]⟩)).lookup "burns"
      = some ((["burns"] : List String).contains "burns") :=
  (extract_normalizes_and_defaults
      (some ⟨false, "t", none, some ["burns"]⟩)).2.2
    _ ["burns"] rfl rfl rfl "burns" (by decide)

/-- C2: when the primary classification backend and the fallback backend
both return no result, the run aborts through the catch block with full
cleanup: the loading-particle emitter is stopped and destroyed, the
transient placeholder entity is destroyed, and no finalized entity
remains from this run. -/
theorem processCanvas_both_classifiers_fail (generatorType : String)
    (env : PipelineEnv) (h1 : env.ollamaResponse = none)
    (h2 : env.fallbackResponse = none) :
    (processCanvas generatorType env).particlesStopped = true
    ∧ (processCanvas generatorType env).particlesDestroyed = true
    ∧ (processCanvas generatorType env).placeholderDestroyed = true
    ∧ (processCanvas generatorType env).entityFinalized = false := by
  have hc : classifyStageResponse env = none := by
    rw [classifyStageResponse, h1, h2]
  simp [processCanvas, hc, errorCatchOutcome]

theorem processCanvas_both_classifiers_fail_witness :
    (processCanvas "imagen"
        ⟨none, none, ⟨true, GenBody.textBody "x"⟩⟩).particlesStopped = true
    ∧ (processCanvas "imagen"
        ⟨none, none, ⟨true, GenBody.textBody "x"⟩⟩).particlesDestroyed = true
    ∧ (processCanvas "imagen"
        ⟨none, none, ⟨true, GenBody.textBody "x"⟩⟩).placeholderDestroyed = true
    ∧ (processCanvas "imagen"
        ⟨none, none, ⟨true, GenBody.textBody "x"⟩⟩).entityFinalized = false :=
  processCanvas_both_classifiers_fail "imagen"
    ⟨none, none, ⟨true, GenBody.textBody "x"⟩⟩ rfl rfl

/-- C4 counterexample: with the imagen generator, a moderation-rejection
JSON from the generation backend is received by the client as plain text,
the shouldRemove check never fires, and the run finalizes the entity
instead of tearing the placeholder down. -/
theorem generation_moderation_imagen_finalizes :
    (processCanvas "imagen"
        ⟨some ⟨false, "cat", none, none⟩, none,
         ⟨true, GenBody.jsonBody none none true⟩⟩).entityFinalized = true
    ∧ (processCanvas "imagen"
        ⟨some ⟨false, "cat", none, none⟩, none,
         ⟨true, GenBody.jsonBody none none true⟩⟩).placeholderDestroyed
        = false := by
  decide

/-- C4 (amended): a generation-stage moderation rejection is handled as a
classification-stage rejection only for the veo generator, and there only
through the error path (the missing hash field makes the shouldRemove
check throw a TypeError that the run's catch block turns into the same
silent teardown); for imagen and gemini the rejection JSON arrives as
text, the shouldRemove check does not fire, and the run proceeds to
finalize the entity, with no user-visible error in any of the cases. -/
theorem generation_moderation_outcomes (env : PipelineEnv)
    (resp : GeminiResponse) (hc : classifyStageResponse env = some resp)
    (hsr : resp.shouldRemove = false)
    (hm : env.generateResponse = ⟨true, GenBody.jsonBody none none true⟩) :
    processCanvas "veo" env = silentTeardownOutcome
    ∧ (processCanvas "imagen" env).entityFinalized = true
    ∧ (processCanvas "imagen" env).placeholderDestroyed = false
    ∧ (processCanvas "imagen" env).userVisibleError = false
    ∧ (processCanvas "gemini" env).entityFinalized = true
    ∧ (processCanvas "gemini" env).placeholderDestroyed = false := by
  have hveo : sendToImageGenerationBackend "veo"
      (⟨true, GenBody.jsonBody none none true⟩ : GenHttpResponse)
      = .ok .undef := rfl
  have himg : sendToImageGenerationBackend "imagen"
      (⟨true, GenBody.jsonBody none none true⟩ : GenHttpResponse)
      = .ok (.str (genBodyText (GenBody.jsonBody none none true))) := rfl
  have hgem : sendToImageGenerationBackend "gemini"
      (⟨true, GenBody.jsonBody none none true⟩ : GenHttpResponse)
      = .ok (.str (genBodyText (GenBody.jsonBody none none true))) := rfl
  refine ⟨?_, ?_, ?_, ?_, ?_, ?_⟩ <;>
    simp [processCanvas, hc, hsr, hm, hveo, himg, hgem, jsReadShouldRemove,
      silentTeardownOutcome, errorCatchOutcome]

theorem generation_moderation_outcomes_witness :
    processCanvas "veo"
        ⟨some ⟨false, "cat", none, none⟩, none,
         ⟨true, GenBody.jsonBody none none true⟩⟩ = silentTeardownOutcome
    ∧ (processCanvas "imagen"
        ⟨some ⟨false, "cat", none, none⟩, none,
         ⟨true, GenBody.jsonBody none none true⟩⟩).entityFinalized = true
    ∧ (processCanvas "imagen"
        ⟨some ⟨false, "cat", none, none⟩, none,
         ⟨true, GenBody.jsonBody none none true⟩⟩).placeholderDestroyed = false
    ∧ (processCanvas "imagen"
        ⟨some ⟨false, "cat", none, none⟩, none,
         ⟨true, GenBody.jsonBody none none true⟩⟩).userVisibleError = false
    ∧ (processCanvas "gemini"
        ⟨some ⟨false, "cat", none, none⟩, none,
         ⟨true, GenBody.jsonBody none none true⟩⟩).entityFinalized = true
    ∧ (processCanvas "gemini"
        ⟨some ⟨false, "cat", none, none⟩, none,
         ⟨true, GenBody.jsonBody none none true⟩⟩).placeholderDestroyed
        = false :=
  generation_moderation_outcomes
    ⟨some ⟨false, "cat", none, none⟩, none,
     ⟨true, GenBody.jsonBody none none true⟩⟩
    ⟨false, "cat", none, none⟩ rfl rfl rfl

theorem handleVeoFailure_no_frame_textures (hash : String)
    (st : VeoEntityState) (i : Nat) (hi : i < 4) :
    frameKey hash i ∉ (handleVeoFailure hash st).loadedTextures := by
  intro hmem
  rw [handleVeoFailure] at hmem
  have hpred := (List.mem_filter.1 hmem).2
  have hany : (List.range 4).any
      (fun j => frameKey hash i == frameKey hash j) = true :=
    List.any_eq_true.2 ⟨i, List.mem_range.2 hi, by simp⟩
  rw [hany] at hpred
  simp at hpred

theorem pollLoop_no_success (env : Nat → PollAttempt) (hash : String)
    (fuel k : Nat) (st : VeoEntityState)
    (h : ∀ j, j < fuel → env (k + j) ≠ PollAttempt.readyLoadOk) :
    ∃ st2, pollLoop env hash k fuel st = handleVeoFailure hash st2 := by
  induction fuel generalizing k st with
  | zero => exact ⟨st, rfl⟩
  | succ fuel ih =>
    have hnext : ∀ j, j < fuel → env (k + 1 + j) ≠ PollAttempt.readyLoadOk := by
      intro j hj
      have : k + 1 + j = k + (j + 1) := by omega
      rw [this]
      exact h (j + 1) (by omega)
    cases henv : env k with
    | errorSignal =>
      exact ⟨st, by simp [pollLoop, henv]⟩
    | notReady =>
      rcases ih (k + 1) st hnext with ⟨st2, h2⟩
      exact ⟨st2, by simp [pollLoop, henv, h2]⟩
    | readyLoadFail n =>
      rcases ih (k + 1) (loadFrames hash n st) hnext with ⟨st2, h2⟩
      exact ⟨st2, by simp [pollLoop, henv, h2]⟩
    | readyLoadOk =>
      have := h 0 (by omega)
      rw [Nat.add_zero] at this
      exact absurd henv this

/-- C3: when no polling round within the attempt budget both reports
ready and loads the frames (the handle never becomes ready, loading keeps
failing, or an explicit error is observed), the run ends in the
handleVeoFailure fallback: no genframe frame texture of the hash remains
loaded, the blink effect is stopped with alpha restored to 1, the entity
shows the single static placeholder asset, and it is not animated. -/
theorem poll_budget_exhaustion_fallback (env : Nat → PollAttempt)
    (hash : String) (st : VeoEntityState)
    (h : ∀ k, k < maxRetries → env k ≠ PollAttempt.readyLoadOk) :
    (∀ i, i < 4 → frameKey hash i ∉
        (pollForFramesAndShowAnimation env hash st).loadedTextures)
    ∧ (pollForFramesAndShowAnimation env hash st).blinkActive = false
    ∧ (pollForFramesAndShowAnimation env hash st).alphaIsOne = true
    ∧ (pollForFramesAndShowAnimation env hash st).entityTextureKey = some hash
    ∧ (pollForFramesAndShowAnimation env hash st).animated = false := by
  have h0 : ∀ j, j < maxRetries → env (0 + j) ≠ PollAttempt.readyLoadOk := by
    intro j hj
    rw [Nat.zero_add]
    exact h j hj
  rcases pollLoop_no_success env hash maxRetries 0 st h0 with ⟨st2, heq⟩
  rw [pollForFramesAndShowAnimation, heq]
  refine ⟨fun i hi => handleVeoFailure_no_frame_textures hash st2 i hi,
    rfl, rfl, rfl, rfl⟩

theorem poll_budget_exhaustion_fallback_witness :
    (∀ i, i < 4 → frameKey "h77" i ∉
        (pollForFramesAndShowAnimation (fun _ => PollAttempt.notReady) "h77"
          ⟨[], true, false, none, false⟩).loadedTextures)
    ∧ (pollForFramesAndShowAnimation (fun _ => PollAttempt.notReady) "h77"
        ⟨[], true, false, none, false⟩).blinkActive = false
    ∧ (pollForFramesAndShowAnimation (fun _ => PollAttempt.notReady) "h77"
        ⟨[], true, false, none, false⟩).alphaIsOne = true
    ∧ (pollForFramesAndShowAnimation (fun _ => PollAttempt.notReady) "h77"
        ⟨[], true, false, none, false⟩).entityTextureKey = some "h77"
    ∧ (pollForFramesAndShowAnimation (fun _ => PollAttempt.notReady) "h77"
        ⟨[], true, false, none, false⟩).animated = false :=
  poll_budget_exhaustion_fallback (fun _ => PollAttempt.notReady) "h77"
    ⟨[], true, false, none, false⟩ (fun _ _ h => by cases h)

/-- C5 counterexample: on contact-begin between a heavy floating body A
and a non-heavy floating body B (no fluid sensor involved), the heavy
body A keeps its floating effect and its floats trait, while the
floating status is stripped from the non-heavy partner B — the heavy
body itself does not lose floating, contrary to the claim. -/
theorem heavy_body_keeps_floating :
    heavyOf (⟨⟨false, some ⟨⟨true, true⟩, false⟩⟩,
        ⟨false, some ⟨⟨false, true⟩, false⟩⟩,
        true, true, none, none⟩ : WaterPairState).bodyA = true
    ∧ (collisionStartPair
        ⟨⟨false, some ⟨⟨true, true⟩, false⟩⟩,
         ⟨false, some ⟨⟨false, true⟩, false⟩⟩,
         true, true, none, none⟩).aFloatingEffect = true
    ∧ ((collisionStartPair
        ⟨⟨false, some ⟨⟨true, true⟩, false⟩⟩,
         ⟨false, some ⟨⟨false, true⟩, false⟩⟩,
         true, true, none, none⟩).bodyA.gameObject.map
          fun o => o.prop.floats) = some true
    ∧ (collisionStartPair
        ⟨⟨false, some ⟨⟨true, true⟩, false⟩⟩,
         ⟨false, some ⟨⟨false, true⟩, false⟩⟩,
         true, true, none, none⟩).bFloatingEffect = false
    ∧ ((collisionStartPair
        ⟨⟨false, some ⟨⟨true, true⟩, false⟩⟩,
         ⟨false, some ⟨⟨false, true⟩, false⟩⟩,
         true, true, none, none⟩).bodyB.gameObject.map
          fun o => o.prop.floats) = some false := by
  decide

/-- C5 (amended): a body entering the fluid sensor region receives the
splash (with water friction), the floating effect and the wet effect at
contact-begin (provided the sensor side is not itself a heavy game
object), and at contact-end receives an exit splash (with air friction)
and loses the floating effect; on contact between two game objects,
a heavy=true body strips the floating effect and the floats trait from
its colliding partner, while the heavy body itself is left unchanged
when the partner is not heavy. -/
theorem water_coupling_spec (st : WaterPairState) :
    (st.bodyA.isSensor = true → heavyOf st.bodyA = false →
        (collisionStartPair st).bFloatingEffect = true
        ∧ (collisionStartPair st).bSplash = some SplashFriction.water
        ∧ (collisionStartPair st).bodyB.gameObject
            = (addWetTo st.bodyB).gameObject)
    ∧ (st.bodyA.isSensor = true →
        (collisionEndPair st).bFloatingEffect = false
        ∧ (collisionEndPair st).bSplash = some SplashFriction.air)
    ∧ (∀ ga gb, st.bodyA.gameObject = some ga → st.bodyB.gameObject = some gb →
        st.bodyA.isSensor = false → st.bodyB.isSensor = false →
        ga.prop.heavy = true →
        (collisionStartPair st).bFloatingEffect = false
        ∧ ((collisionStartPair st).bodyB.gameObject.map
            fun o => o.prop.floats) = some false
        ∧ (gb.prop.heavy = false →
            (collisionStartPair st).bodyA = st.bodyA
            ∧ (collisionStartPair st).aFloatingEffect = st.aFloatingEffect)) := by
  refine ⟨?_, ?_, ?_⟩
  · intro hsa hha
    rcases st with ⟨⟨sa, oa⟩, ⟨sb, ob⟩, afl, bfl, asp, bsp⟩
    simp only at hsa
    subst hsa
    cases oa with
    | none =>
      cases ob with
      | none => cases sb <;> simp [collisionStartPair, addWetTo]
      | some gb => cases sb <;> simp [collisionStartPair, addWetTo, heavyOf]
    | some ga =>
      have hga : ga.prop.heavy = false := by
        simpa [heavyOf] using hha
      cases ob with
      | none => cases sb <;> simp [collisionStartPair, addWetTo, heavyOf, hga]
      | some gb =>
        cases sb <;>
          cases hgb : gb.prop.heavy <;>
            simp [collisionStartPair, addWetTo, heavyOf, setFloatsFalse,
              hga, hgb]
  · intro hsa
    rcases st with ⟨⟨sa, oa⟩, ⟨sb, ob⟩, afl, bfl, asp, bsp⟩
    simp only at hsa
    subst hsa
    cases sb <;> simp [collisionEndPair]
  · intro ga gb hga hgb hsa hsb hheavy
    rcases st with ⟨⟨sa, oa⟩, ⟨sb, ob⟩, afl, bfl, asp, bsp⟩
    simp only at hga hgb hsa hsb
    subst hsa
    subst hsb
    subst hga
    subst hgb
    refine ⟨?_, ?_, ?_⟩
    · cases hgbh : gb.prop.heavy <;>
        simp [collisionStartPair, hheavy, hgbh, heavyOf, setFloatsFalse]
    · cases hgbh : gb.prop.heavy <;>
        simp [collisionStartPair, hheavy, hgbh, heavyOf, setFloatsFalse]
    · intro hgbh
      constructor <;>
        simp [collisionStartPair, hheavy, hgbh, heavyOf, setFloatsFalse]

theorem water_coupling_spec_witness :
    (collisionStartPair
        ⟨⟨true, none⟩, ⟨false, some ⟨⟨false, false⟩, false⟩⟩,
         false, false, none, none⟩).bFloatingEffect = true
    ∧ (collisionStartPair
        ⟨⟨true, none⟩, ⟨false, some ⟨⟨false, false⟩, false⟩⟩,
         false, false, none, none⟩).bSplash = some SplashFriction.water
    ∧ (collisionStartPair
        ⟨⟨true, none⟩, ⟨false, some ⟨⟨false, false⟩, false⟩⟩,
         false, false, none, none⟩).bodyB.gameObject
        = (addWetTo (⟨false, some ⟨⟨false, false⟩, false⟩⟩ : WBody)).gameObject :=
  (water_coupling_spec
      ⟨⟨true, none⟩, ⟨false, some ⟨⟨false, false⟩, false⟩⟩,
       false, false, none, none⟩).1 rfl rfl

theorem igniteIfFlammable_rusted (s t : EntState) :
    (igniteIfFlammable s t).rusted = t.rusted := by
  unfold igniteIfFlammable addFire
  split <;> rfl

theorem igniteIfFlammable_texture (s t : EntState) :
    (igniteIfFlammable s t).texture = t.texture := by
  unfold igniteIfFlammable addFire
  split <;> rfl

theorem igniteIfFlammable_lightning (s t : EntState) :
    (igniteIfFlammable s t).lightning = t.lightning := by
  unfold igniteIfFlammable addFire
  split <;> rfl

theorem conductIfRusted_rusted (s t : EntState) :
    (conductIfRusted s t).rusted = (t.rusted && !s.lightning) := by
  unfold conductIfRusted
  cases hs : s.lightning <;> cases ht : t.rusted <;> simp [hs, ht]

theorem conductIfRusted_texture (s t : EntState) :
    (conductIfRusted s t).texture
      = if s.lightning && t.rusted then "key" else t.texture := by
  unfold conductIfRusted
  cases hs : s.lightning <;> cases ht : t.rusted <;> simp [hs, ht]

theorem conductIfRusted_lightning (s t : EntState) :
    (conductIfRusted s t).lightning = t.lightning := by
  unfold conductIfRusted
  split <;> rfl

/-- C6: the conduction rule of the collisionactive handler clears rusted
and retextures to the key asset whenever a lightning body meets a rusted
body; reapplying the whole handler changes neither rusted flags nor
textures any further (idempotence over repeated contact-continuing
events, so the effective mutation happens exactly once per contact), and
the rusted flags and textures it produces do not depend on which body the
physics engine reports first. -/
theorem conduction_once_idempotent_symmetric (a b : EntState) :
    (a.lightning = true → b.rusted = true →
        (collisionActivePair a b).2.rusted = false
        ∧ (collisionActivePair a b).2.texture = "key")
    ∧ ((collisionActivePair (collisionActivePair a b).1
          (collisionActivePair a b).2).1.rusted
        = (collisionActivePair a b).1.rusted
      ∧ (collisionActivePair (collisionActivePair a b).1
          (collisionActivePair a b).2).2.rusted
        = (collisionActivePair a b).2.rusted
      ∧ (collisionActivePair (collisionActivePair a b).1
          (collisionActivePair a b).2).1.texture
        = (collisionActivePair a b).1.texture
      ∧ (collisionActivePair (collisionActivePair a b).1
          (collisionActivePair a b).2).2.texture
        = (collisionActivePair a b).2.texture)
    ∧ ((collisionActivePair b a).1.rusted = (collisionActivePair a b).2.rusted
      ∧ (collisionActivePair b a).2.rusted = (collisionActivePair a b).1.rusted
      ∧ (collisionActivePair b a).1.texture
        = (collisionActivePair a b).2.texture
      ∧ (collisionActivePair b a).2.texture
        = (collisionActivePair a b).1.texture) := by
  simp only [collisionActivePair, conductIfRusted_rusted,
    conductIfRusted_texture, conductIfRusted_lightning,
    igniteIfFlammable_rusted, igniteIfFlammable_texture,
    igniteIfFlammable_lightning]
  cases hal : a.lightning <;> cases hbl : b.lightning <;>
    cases har : a.rusted <;> cases hbr : b.rusted <;> simp

theorem conduction_once_idempotent_symmetric_witness :
    (collisionActivePair ⟨false, false, true, false, false, "bolt"⟩
        ⟨false, false, false, true, false, "rustedkey"⟩).2.rusted = false
    ∧ (collisionActivePair ⟨false, false, true, false, false, "bolt"⟩
        ⟨false, false, false, true, false, "rustedkey"⟩).2.texture = "key" :=
  (conduction_once_idempotent_symmetric
      ⟨false, false, true, false, false, "bolt"⟩
      ⟨false, false, false, true, false, "rustedkey"⟩).1 rfl rfl

/-- C7 counterexample: on a rusted entity that is not a RustedKey
instance, the electrify command clears rusted but keeps the old texture,
while the collision-path conduction mutation also switches the texture
to the key asset — the two paths diverge. -/
theorem electrify_conduction_diverge :
    electrifyTarget ⟨false, true, "rustedPlate"⟩
        ≠ conductionMutation ⟨false, true, "rustedPlate"⟩
    ∧ (electrifyTarget ⟨false, true, "rustedPlate"⟩).texture = "rustedPlate"
    ∧ (conductionMutation ⟨false, true, "rustedPlate"⟩).texture = "key" := by
  decide

/-- C7 (amended): the electrify command and the collision-path conduction
mutation always agree on the rusted flag, and agree on the full state
change for RustedKey targets and for targets that are not rusted; they
diverge only in the texture of a rusted non-RustedKey target, which the
collision path retextures to the key asset and the command path leaves
unchanged. -/
theorem electrify_conduction_agreement (t : CmdEnt) :
    (electrifyTarget t).rusted = (conductionMutation t).rusted
    ∧ (t.isRustedKey = true → electrifyTarget t = conductionMutation t)
    ∧ (t.rusted = false → electrifyTarget t = conductionMutation t) := by
  rcases t with ⟨ik, r, tex⟩
  cases ik <;> cases r <;>
    simp [electrifyTarget, conductionMutation]

theorem electrify_conduction_agreement_witness :
    electrifyTarget ⟨true, true, "rustedkey"⟩
      = conductionMutation ⟨true, true, "rustedkey"⟩ :=
  (electrify_conduction_agreement ⟨true, true, "rustedkey"⟩).2.1 rfl

/-- The ready flag of a /checkFrames response, when the response is not a
400 error. -/
def readyOf : CheckFramesResult → Option Bool
  | .badRequest _ => none
  | .status r _ _ => some r

/-- The progress count of a /checkFrames response. -/
def progressOf : CheckFramesResult → Option Nat
  | .badRequest _ => none
  | .status _ p _ => some p

/-- The total of a /checkFrames response. -/
def totalOf : CheckFramesResult → Option Nat
  | .badRequest _ => none
  | .status _ _ t => some t

/-- C9: for a non-empty hash, /checkFrames/:hash answers ready=true
exactly when all four frame files exist, progress is the number of frame
files that exist, and total is always 4; a missing or empty hash yields
the 400 error independently of the file system. -/
theorem checkFrames_spec (h : String) (fs : String → Bool) (hne : ¬ h = "") :
    (readyOf (checkFramesHandler (some h) fs) = some true ↔
        ∀ i, i < 4 → fs (frameFile h i) = true)
    ∧ progressOf (checkFramesHandler (some h) fs)
        = some ((List.range 4).countP (fun i => fs (frameFile h i)))
    ∧ totalOf (checkFramesHandler (some h) fs) = some 4
    ∧ (∀ fs2 : String → Bool,
        checkFramesHandler none fs2 = .badRequest "Hash parameter is required"
        ∧ checkFramesHandler (some "") fs2
            = .badRequest "Hash parameter is required") := by
  have hbe : (h == "") = false := by
    rw [beq_eq_false_iff_ne]; exact hne
  have hrange : List.range 4 = [0, 1, 2, 3] := rfl
  have hiff : (∀ i, i < 4 → fs (frameFile h i) = true) ↔
      (fs (frameFile h 0) = true ∧ fs (frameFile h 1) = true
        ∧ fs (frameFile h 2) = true ∧ fs (frameFile h 3) = true) := by
    constructor
    · intro hp
      exact ⟨hp 0 (by omega), hp 1 (by omega), hp 2 (by omega),
        hp 3 (by omega)⟩
    · rintro ⟨p0, p1, p2, p3⟩ i hi
      interval_cases i <;> assumption
  refine ⟨?_, ?_, ?_, ?_⟩
  · rw [hiff]
    simp only [checkFramesHandler, hbe, Bool.false_eq_true, if_false,
      readyOf, hrange]
    cases h0 : fs (frameFile h 0) <;> cases h1 : fs (frameFile h 1) <;>
      cases h2 : fs (frameFile h 2) <;> cases h3 : fs (frameFile h 3) <;>
        simp [List.countP_cons, List.countP_nil, h0, h1, h2, h3]
  · simp [checkFramesHandler, hbe, progressOf]
  · simp [checkFramesHandler, hbe, totalOf]
  · intro fs2
    exact ⟨rfl, rfl⟩

theorem checkFrames_spec_witness :
    (readyOf (checkFramesHandler (some "abc") (fun _ => true)) = some true ↔
        ∀ i, i < 4 → (fun _ => true) (frameFile "abc" i) = true)
    ∧ progressOf (checkFramesHandler (some "abc") (fun _ => true))
        = some ((List.range 4).countP
            (fun i => (fun _ => true) (frameFile "abc" i)))
    ∧ totalOf (checkFramesHandler (some "abc") (fun _ => true)) = some 4
    ∧ (∀ fs2 : String → Bool,
        checkFramesHandler none fs2 = .badRequest "Hash parameter is required"
        ∧ checkFramesHandler (some "") fs2
            = .badRequest "Hash parameter is required") :=
  checkFrames_spec "abc" (fun _ => true) (by decide)

theorem wordAssignments_keys (w : String) :
    ∀ kv ∈ wordAssignments w, kv.1 ∈ initialParseProperties.map Prod.fst := by
  unfold wordAssignments
  split <;> intro kv hkv <;> fin_cases hkv <;> decide

theorem typeOverrideAssignments_keys (objectType : String) :
    ∀ kv ∈ typeOverrideAssignments objectType,
      kv.1 ∈ initialParseProperties.map Prod.fst := by
  unfold typeOverrideAssignments
  split_ifs <;> intro kv hkv <;> fin_cases hkv <;> decide

theorem foldl_assign_keys_of_base (assigns : List (String × Bool))
    (m : PropMap)
    (hkeys : m.map Prod.fst = initialParseProperties.map Prod.fst)
    (hin : ∀ kv ∈ assigns, kv.1 ∈ initialParseProperties.map Prod.fst) :
    ((assigns.foldl (fun acc kv => jsAssign acc kv.1 kv.2) m)).map Prod.fst
      = initialParseProperties.map Prod.fst := by
  have hin2 : ∀ kv ∈ assigns, kv.1 ∈ m.map Prod.fst := by
    intro kv hkv
    rw [hkeys]
    exact hin kv hkv
  rw [foldl_jsAssign_map_fst assigns m hin2, hkeys]

theorem foldl_applyPropertyWord_keys (ws : List String) (m : PropMap)
    (hkeys : m.map Prod.fst = initialParseProperties.map Prod.fst) :
    (ws.foldl applyPropertyWord m).map Prod.fst
      = initialParseProperties.map Prod.fst := by
  induction ws generalizing m with
  | nil => simpa using hkeys
  | cons w tl ih =>
    simp only [List.foldl_cons]
    apply ih
    show (applyPropertyWord m w).map Prod.fst = _
    unfold applyPropertyWord
    exact foldl_assign_keys_of_base (wordAssignments w) m hkeys
      (wordAssignments_keys w)

/-- C10: for every object type, property string and confidence, the
parsed property record has exactly the fixed fourteen trait keys (no key
outside that set is ever created), and the type-specific overrides win
last: object type wind forces blows=true, solid=false and falls=false
whatever the property words said. -/
theorem parseProperties_closed_keys_wind (objectType propertiesStr : String)
    (confidence : ℚ) :
    (parsePropertiesFromString objectType propertiesStr confidence).map
        Prod.fst
      = ["floats", "hovers", "falls", "drips", "douses", "solid", "heavy",
         "burns", "explodes", "flies", "wooden", "metal", "ice", "blows"]
    ∧ (objectType = "wind" →
        (parsePropertiesFromString objectType propertiesStr
            confidence).lookup "blows" = some true
        ∧ (parsePropertiesFromString objectType propertiesStr
            confidence).lookup "solid" = some false
        ∧ (parsePropertiesFromString objectType propertiesStr
            confidence).lookup "falls" = some false) := by
  constructor
  · unfold parsePropertiesFromString
    have hwords := foldl_applyPropertyWord_keys
      ((propertiesStr.toLower.splitOn ",").map String.trim)
      initialParseProperties rfl
    have hall := foldl_assign_keys_of_base
      (typeOverrideAssignments objectType) _ hwords
      (typeOverrideAssignments_keys objectType)
    rw [hall]
    rfl
  · intro hty
    subst hty
    unfold parsePropertiesFromString
    have hover : typeOverrideAssignments "wind"
        = [("blows", true), ("solid", false), ("falls", false)] := by decide
    rw [hover]
    simp only [List.foldl_cons, List.foldl_nil]
    refine ⟨?_, ?_, ?_⟩
    · rw [jsAssign_lookup_ne _ _ _ _ (by decide),
        jsAssign_lookup_ne _ _ _ _ (by decide), jsAssign_lookup_self]
    · rw [jsAssign_lookup_ne _ _ _ _ (by decide), jsAssign_lookup_self]
    · rw [jsAssign_lookup_self]

theorem parseProperties_closed_keys_wind_witness :
    (parsePropertiesFromString "wind" "heavy, metal" 0).lookup "blows"
        = some true
    ∧ (parsePropertiesFromString "wind" "heavy, metal" 0).lookup "solid"
        = some false
    ∧ (parsePropertiesFromString "wind" "heavy, metal" 0).lookup "falls"
        = some false :=
  (parseProperties_closed_keys_wind "wind" "heavy, metal" 0).2 rfl
